import Mathlib

/-!
Shallow embedding of the MASI sentiment scoring engine
(src/sentiment_calculator.py together with the constants of src/config.py).

Numeric values are modelled as rationals; a market-data record is a bag of
optional numeric fields, `Option.getD` playing the role of `dict.get` with a
default.  Where the Python source can raise (a division whose denominator an
adversarial record drives to zero) the translated body lives in `Except Unit`,
and the source's `try/except` handler is the surrounding `match` that
substitutes the documented fallback value.  The wall clock read by
`datetime.now()` is passed in as two explicit arguments (a timestamp and a
date), one per call site in the source.
-/

namespace Masi

/-- The input record: every named numeric field of the market-data dictionary,
each possibly absent (`market_data.get(key, default)` in the source). -/
structure MarketData where
  open_price : Option ℚ := none
  high : Option ℚ := none
  low : Option ℚ := none
  close : Option ℚ := none
  volume : Option ℚ := none
  volume_avg_20d : Option ℚ := none
  advances : Option ℚ := none
  declines : Option ℚ := none
  unchanged : Option ℚ := none
  new_highs : Option ℚ := none
  new_lows : Option ℚ := none
  rsi : Option ℚ := none
  macd : Option ℚ := none
  ma_20 : Option ℚ := none
  ma_50 : Option ℚ := none
  ma_200 : Option ℚ := none
  change_pct : Option ℚ := none
  deriving DecidableEq

/-- Sentiment component weights, config.py SENTIMENT_WEIGHTS. -/
structure Weights where
  breadth : ℚ
  momentum : ℚ
  trend : ℚ
  volume : ℚ
  deriving DecidableEq

def SENTIMENT_WEIGHTS : Weights :=
  { breadth := 0.30, momentum := 0.25, trend := 0.25, volume := 0.20 }

/-- Sentiment score thresholds, config.py THRESHOLDS. -/
structure Thresholds where
  very_bullish : ℚ
  bullish : ℚ
  neutral : ℚ
  bearish : ℚ
  very_bearish : ℚ
  deriving DecidableEq

def THRESHOLDS : Thresholds :=
  { very_bullish := 60, bullish := 30, neutral := -30, bearish := -60,
    very_bearish := -100 }

/-- The five sentiment label keys of config.py SENTIMENT_LABELS. -/
inductive SentimentKey where
  | very_bullish
  | bullish
  | neutral
  | bearish
  | very_bearish
  deriving DecidableEq

/-- Breadth bucket thresholds, config.py BREADTH_THRESHOLDS. -/
structure BreadthThresholds where
  extremely_positive : ℚ
  very_positive : ℚ
  positive : ℚ
  neutral : ℚ
  negative : ℚ
  very_negative : ℚ
  extremely_negative : ℚ
  deriving DecidableEq

def BREADTH_THRESHOLDS : BreadthThresholds :=
  { extremely_positive := 0.75, very_positive := 0.60, positive := 0.55,
    neutral := 0.45, negative := 0.40, very_negative := 0.25,
    extremely_negative := 0.0 }

/-- `max(-100, min(100, x))`, the clamp applied at the end of every score. -/
def clamp100 (x : ℚ) : ℚ := max (-100) (min 100 x)

/-- The seven-bucket piecewise mapping of the advance percentage inside
`_calculate_breadth_sentiment`. -/
def breadth_bucket_score (advance_pct : ℚ) : ℚ :=
  if advance_pct ≥ BREADTH_THRESHOLDS.extremely_positive then
    80 + (advance_pct - BREADTH_THRESHOLDS.extremely_positive) * 200
  else if advance_pct ≥ BREADTH_THRESHOLDS.very_positive then
    60 + (advance_pct - BREADTH_THRESHOLDS.very_positive) * 400
  else if advance_pct ≥ BREADTH_THRESHOLDS.positive then
    30 + (advance_pct - BREADTH_THRESHOLDS.positive) * 200
  else if advance_pct ≥ BREADTH_THRESHOLDS.neutral then
    (advance_pct - BREADTH_THRESHOLDS.neutral) * 150
  else if advance_pct ≥ BREADTH_THRESHOLDS.negative then
    -30 + (advance_pct - BREADTH_THRESHOLDS.negative) * 200
  else if advance_pct ≥ BREADTH_THRESHOLDS.very_negative then
    -60 + (advance_pct - BREADTH_THRESHOLDS.very_negative) * 400
  else
    -100 + advance_pct * 500

/-- Body of `_calculate_breadth_sentiment`.  The source computes the unused
`ad_ratio = advances / (declines + 1)` before bucketing; when `declines + 1`
is zero that division raises, which the embedding signals as `Except.error`. -/
def breadth_try (md : MarketData) : Except Unit ℚ :=
  let advances := md.advances.getD 0
  let declines := md.declines.getD 0
  let unchanged := md.unchanged.getD 0
  let total := advances + declines + unchanged
  if total = 0 then Except.ok 0
  else if declines + 1 = 0 then Except.error ()
  else
    let advance_pct := advances / total
    Except.ok (clamp100 (breadth_bucket_score advance_pct))

/-- `_calculate_breadth_sentiment`: its `except` clause returns 0. -/
def calculate_breadth_sentiment (md : MarketData) : ℚ :=
  match breadth_try md with
  | Except.ok s => s
  | Except.error _ => 0

/-- Body of `_calculate_momentum_sentiment`.  `total_extremes = new_highs +
new_lows + 1` can be zero for adversarial records, and the ratio division
then raises. -/
def momentum_try (md : MarketData) : Except Unit ℚ :=
  let change_pct := md.change_pct.getD 0
  let new_highs := md.new_highs.getD 0
  let new_lows := md.new_lows.getD 0
  let price_score :=
    if abs change_pct < 0.5 then change_pct * 200
    else clamp100 (change_pct * 20)
  let total_extremes := new_highs + new_lows + 1
  if total_extremes = 0 then Except.error ()
  else
    let highs_ratio := new_highs / total_extremes
    let extremes_score : ℚ :=
      if highs_ratio > 0.7 then 80
      else if highs_ratio > 0.5 then 30
      else if highs_ratio > 0.3 then -30
      else -80
    Except.ok (clamp100 (price_score * 0.6 + extremes_score * 0.4))

/-- `_calculate_momentum_sentiment`: its `except` clause returns 0. -/
def calculate_momentum_sentiment (md : MarketData) : ℚ :=
  match momentum_try md with
  | Except.ok s => s
  | Except.error _ => 0

/-- The RSI component formula of `_calculate_trend_sentiment`. -/
def rsi_score_of (rsi : ℚ) : ℚ :=
  if rsi > 70 then -30 + (100 - rsi) * 3
  else if rsi < 30 then 30 + rsi * 2.7
  else (rsi - 50) * 1.2

/-- `_calculate_trend_sentiment`.  No division can fault: the normalisation by
`ma_count * 30` is guarded by `ma_count > 0`. -/
def calculate_trend_sentiment (md : MarketData) : ℚ :=
  let close := md.close.getD 0
  let rsi := md.rsi.getD 50
  let ma_20 := md.ma_20.getD close
  let ma_50 := md.ma_50.getD close
  let ma_200 := md.ma_200.getD close
  let ma_score : ℚ :=
    (if close > ma_20 then 30 else 0) + (if close > ma_50 then 30 else 0) +
      (if close > ma_200 then 30 else 0)
  let ma_count : ℚ :=
    (if close > ma_20 then 1 else 0) + (if close > ma_50 then 1 else 0) +
      (if close > ma_200 then 1 else 0)
  let ma_score_norm := if ma_count > 0 then ma_score / (ma_count * 30) * 100 else ma_score
  let rsi_score := rsi_score_of rsi
  clamp100 (ma_score_norm * 0.6 + rsi_score * 0.4)

/-- `_calculate_volume_sentiment`.  The ratio division is doubly guarded
(early return on `volume_avg == 0` and the redundant conditional expression),
so no fault is possible. -/
def calculate_volume_sentiment (md : MarketData) : ℚ :=
  let volume := md.volume.getD 0
  let volume_avg := md.volume_avg_20d.getD volume
  if volume_avg = 0 then 0
  else
    let volume_ratio := if volume_avg ≠ 0 then volume / volume_avg else 1
    let change_pct := md.change_pct.getD 0
    let volume_score : ℚ :=
      if volume_ratio > 1.5 then
        if change_pct > 0 then 70 else if change_pct < 0 then -70 else 30
      else if volume_ratio > 1.0 then
        if change_pct > 0 then 40 else if change_pct < 0 then -40 else 0
      else if volume_ratio > 0.7 then
        if change_pct > 0 then 20 else if change_pct < 0 then -20 else -10
      else -40
    clamp100 volume_score

/-- The technical-levels sub-record of the result. -/
structure TechnicalLevels where
  pivot_point : ℚ
  resistance_r1 : ℚ
  resistance_r2 : ℚ
  support_s1 : ℚ
  support_s2 : ℚ
  ma_20 : ℚ
  ma_50 : ℚ
  ma_200 : ℚ
  deriving DecidableEq

/-- `_calculate_technical_levels`: pivot-point formulas when close, high and
low are all positive, every level collapsed to close otherwise. -/
def calculate_technical_levels (md : MarketData) : TechnicalLevels :=
  let close := md.close.getD 0
  let high := md.high.getD 0
  let low := md.low.getD 0
  if 0 < close ∧ 0 < high ∧ 0 < low then
    let pivot := (high + low + close) / 3
    { pivot_point := pivot
      resistance_r1 := 2 * pivot - low
      resistance_r2 := pivot + (high - low)
      support_s1 := 2 * pivot - high
      support_s2 := pivot - (high - low)
      ma_20 := md.ma_20.getD close
      ma_50 := md.ma_50.getD close
      ma_200 := md.ma_200.getD close }
  else
    { pivot_point := close, resistance_r1 := close, resistance_r2 := close,
      support_s1 := close, support_s2 := close,
      ma_20 := md.ma_20.getD close, ma_50 := md.ma_50.getD close,
      ma_200 := md.ma_200.getD close }

/-- `_get_sentiment_label`: first threshold the score meets or exceeds,
checked from most bullish to most bearish. -/
def get_sentiment_label (t : Thresholds) (score : ℚ) : SentimentKey :=
  if score ≥ t.very_bullish then SentimentKey.very_bullish
  else if score ≥ t.bullish then SentimentKey.bullish
  else if score ≥ t.neutral then SentimentKey.neutral
  else if score ≥ t.bearish then SentimentKey.bearish
  else SentimentKey.very_bearish

/-- One `if ...: signals_present += 1` statement of `_calculate_confidence`. -/
def bump (b : Prop) [Decidable b] (s : ℚ) : ℚ := if b then s + 1 else s

/-- The sequence of eight guarded increments of `signals_present` inside
`_calculate_confidence`, innermost first. -/
def signals_present (md : MarketData) : ℚ :=
  bump (md.ma_200.getD 0 ≠ 0)
    (bump (md.ma_50.getD 0 ≠ 0)
      (bump (md.ma_20.getD 0 ≠ 0)
        (bump (md.volume.getD 0 > 0)
          (bump (md.macd.getD 0 ≠ 0)
            (bump (md.rsi.getD 0 ≠ 0)
              (bump (md.change_pct.getD 0 ≠ 0)
                (bump (md.advances.getD 0 > 0) 0)))))))

/-- Body of `_calculate_confidence`.  No operation in the body can fault on
numeric fields; the `Except` layer records the source's bare `except`
handler. -/
def confidence_try (md : MarketData) : Except Unit ℚ :=
  Except.ok (max 0.0 (min 1.0 (signals_present md / 8)))

/-- `_calculate_confidence`: its bare `except` returns 0.5. -/
def calculate_confidence (md : MarketData) : ℚ :=
  match confidence_try md with
  | Except.ok c => c
  | Except.error _ => 0.5

/-- The components sub-record of the result. -/
structure Components where
  breadth_score : ℚ
  momentum_score : ℚ
  trend_score : ℚ
  volume_score : ℚ
  deriving DecidableEq

/-- The full output record of `calculate_sentiment`. -/
structure SentimentResult where
  overall_score : ℚ
  sentiment_label : SentimentKey
  components : Components
  technical_levels : TechnicalLevels
  timestamp : ℚ
  analysis_date : ℚ
  confidence : ℚ
  deriving DecidableEq

/-- `_default_sentiment`: the fallback record built by the top-level handler.
Its timestamp and date come from the same two clock reads. -/
def default_sentiment (now_ts now_date : ℚ) : SentimentResult :=
  { overall_score := 0
    sentiment_label := SentimentKey.neutral
    components := { breadth_score := 0, momentum_score := 0, trend_score := 0,
                    volume_score := 0 }
    technical_levels := { pivot_point := 0, resistance_r1 := 0,
                          resistance_r2 := 0, support_s1 := 0, support_s2 := 0,
                          ma_20 := 0, ma_50 := 0, ma_200 := 0 }
    timestamp := now_ts
    analysis_date := now_date
    confidence := 0 }

/-- The `try` block of `calculate_sentiment`: the four component scores, the
weighted overall score, label, levels, confidence, and the result record.
`now_ts` models the `datetime.now()` read for the timestamp field and
`now_date` the `datetime.now().date()` fallback for the analysis date. -/
def calculate_sentiment_try (md : MarketData) (analysis_date : Option ℚ)
    (now_ts now_date : ℚ) : Except Unit SentimentResult :=
  let breadth_score := calculate_breadth_sentiment md
  let momentum_score := calculate_momentum_sentiment md
  let trend_score := calculate_trend_sentiment md
  let volume_score := calculate_volume_sentiment md
  let overall_score := clamp100
    (breadth_score * SENTIMENT_WEIGHTS.breadth +
     momentum_score * SENTIMENT_WEIGHTS.momentum +
     trend_score * SENTIMENT_WEIGHTS.trend +
     volume_score * SENTIMENT_WEIGHTS.volume)
  let sentiment_label := get_sentiment_label THRESHOLDS overall_score
  let technical_levels := calculate_technical_levels md
  Except.ok
    { overall_score := overall_score
      sentiment_label := sentiment_label
      components := { breadth_score := breadth_score,
                      momentum_score := momentum_score,
                      trend_score := trend_score,
                      volume_score := volume_score }
      technical_levels := technical_levels
      timestamp := now_ts
      analysis_date := analysis_date.getD now_date
      confidence := calculate_confidence md }

/-- `calculate_sentiment`: the try block, with the top-level `except` handler
substituting the default record. -/
def calculate_sentiment (md : MarketData) (analysis_date : Option ℚ)
    (now_ts now_date : ℚ) : SentimentResult :=
  match calculate_sentiment_try md analysis_date now_ts now_date with
  | Except.ok r => r
  | Except.error _ => default_sentiment now_ts now_date

/-! ### Helper lemmas -/

lemma neg100_le_clamp100 (x : ℚ) : -100 ≤ clamp100 x := le_max_left _ _

lemma clamp100_le_100 (x : ℚ) : clamp100 x ≤ 100 :=
  max_le (by norm_num) (min_le_left _ _)

lemma breadth_bounds (md : MarketData) :
    -100 ≤ calculate_breadth_sentiment md ∧ calculate_breadth_sentiment md ≤ 100 := by
  simp only [calculate_breadth_sentiment, breadth_try]
  split_ifs <;>
    first
      | exact ⟨neg100_le_clamp100 _, clamp100_le_100 _⟩
      | constructor <;> norm_num

lemma momentum_bounds (md : MarketData) :
    -100 ≤ calculate_momentum_sentiment md ∧ calculate_momentum_sentiment md ≤ 100 := by
  simp only [calculate_momentum_sentiment, momentum_try]
  split_ifs <;>
    first
      | exact ⟨neg100_le_clamp100 _, clamp100_le_100 _⟩
      | constructor <;> norm_num

lemma trend_bounds (md : MarketData) :
    -100 ≤ calculate_trend_sentiment md ∧ calculate_trend_sentiment md ≤ 100 := by
  simp only [calculate_trend_sentiment]
  exact ⟨neg100_le_clamp100 _, clamp100_le_100 _⟩

lemma volume_bounds (md : MarketData) :
    -100 ≤ calculate_volume_sentiment md ∧ calculate_volume_sentiment md ≤ 100 := by
  simp only [calculate_volume_sentiment]
  split_ifs <;>
    first
      | exact ⟨neg100_le_clamp100 _, clamp100_le_100 _⟩
      | constructor <;> norm_num

lemma calculate_confidence_eq (md : MarketData) :
    calculate_confidence md = max 0.0 (min 1.0 (signals_present md / 8)) := rfl

lemma confidence_bounds (md : MarketData) :
    0 ≤ calculate_confidence md ∧ calculate_confidence md ≤ 1 := by
  rw [calculate_confidence_eq]
  constructor
  · exact le_trans (by norm_num) (le_max_left _ _)
  · exact max_le (by norm_num) (le_trans (min_le_left _ _) (by norm_num))

lemma calculate_sentiment_eq (md : MarketData) (ad : Option ℚ) (ts nd : ℚ) :
    calculate_sentiment md ad ts nd =
      { overall_score := clamp100
          (calculate_breadth_sentiment md * SENTIMENT_WEIGHTS.breadth +
           calculate_momentum_sentiment md * SENTIMENT_WEIGHTS.momentum +
           calculate_trend_sentiment md * SENTIMENT_WEIGHTS.trend +
           calculate_volume_sentiment md * SENTIMENT_WEIGHTS.volume)
        sentiment_label := get_sentiment_label THRESHOLDS (clamp100
          (calculate_breadth_sentiment md * SENTIMENT_WEIGHTS.breadth +
           calculate_momentum_sentiment md * SENTIMENT_WEIGHTS.momentum +
           calculate_trend_sentiment md * SENTIMENT_WEIGHTS.trend +
           calculate_volume_sentiment md * SENTIMENT_WEIGHTS.volume))
        components := { breadth_score := calculate_breadth_sentiment md,
                        momentum_score := calculate_momentum_sentiment md,
                        trend_score := calculate_trend_sentiment md,
                        volume_score := calculate_volume_sentiment md }
        technical_levels := calculate_technical_levels md
        timestamp := ts
        analysis_date := ad.getD nd
        confidence := calculate_confidence md } := rfl

/-! ### Claim theorems -/

/-- C1: for every market-data record (any subset of the named numeric fields,
any rational values), each of the four sub-scores lies in [-100, 100], the
overall score of `calculate_sentiment` lies in [-100, 100], and the
confidence value lies in [0, 1]. -/
theorem c1_all_scores_bounded (md : MarketData) (ad : Option ℚ) (ts nd : ℚ) :
    (-100 ≤ calculate_breadth_sentiment md ∧ calculate_breadth_sentiment md ≤ 100) ∧
    (-100 ≤ calculate_momentum_sentiment md ∧ calculate_momentum_sentiment md ≤ 100) ∧
    (-100 ≤ calculate_trend_sentiment md ∧ calculate_trend_sentiment md ≤ 100) ∧
    (-100 ≤ calculate_volume_sentiment md ∧ calculate_volume_sentiment md ≤ 100) ∧
    (-100 ≤ (calculate_sentiment md ad ts nd).overall_score ∧
      (calculate_sentiment md ad ts nd).overall_score ≤ 100) ∧
    (0 ≤ (calculate_sentiment md ad ts nd).confidence ∧
      (calculate_sentiment md ad ts nd).confidence ≤ 1) := by
  refine ⟨breadth_bounds md, momentum_bounds md, trend_bounds md, volume_bounds md, ?_, ?_⟩
  · rw [calculate_sentiment_eq]
    exact ⟨neg100_le_clamp100 _, clamp100_le_100 _⟩
  · rw [calculate_sentiment_eq]
    exact confidence_bounds md

/-- C2: under the default configuration the overall score equals the clamp of
the weighted sum 0.30/0.25/0.25/0.20 of the four component scores reported in
the result record. -/
theorem c2_overall_is_weighted_sum (md : MarketData) (ad : Option ℚ) (ts nd : ℚ) :
    (calculate_sentiment md ad ts nd).overall_score =
      max (-100) (min 100
        (0.30 * (calculate_sentiment md ad ts nd).components.breadth_score +
         0.25 * (calculate_sentiment md ad ts nd).components.momentum_score +
         0.25 * (calculate_sentiment md ad ts nd).components.trend_score +
         0.20 * (calculate_sentiment md ad ts nd).components.volume_score)) := by
  rw [calculate_sentiment_eq]
  simp only [clamp100, SENTIMENT_WEIGHTS]
  congr 2
  ring

/-- How many of the three MA fields are present and hold a value different
from close — the claimed reading of `ma_count`, written from the claim's
words (not the source) to compare the claimed trend formula against the
translated one. -/
def claimed_ma_present_count (o : Option ℚ) (close : ℚ) : ℚ :=
  match o with
  | some v => if v = close then 0 else 1
  | none => 0

/-- The trend sub-score as the claim words it: 30 points per average that
close strictly exceeds, normalised by `ma_count * 30` where `ma_count` is
the number of MA fields present and differing from close, the ratio
defaulting to 0 when no average is exceeded.  Written from the claim's
words (not the source) to be compared with `calculate_trend_sentiment`. -/
def claimed_trend_sentiment (md : MarketData) : ℚ :=
  let close := md.close.getD 0
  let rsi := md.rsi.getD 50
  let ma_20 := md.ma_20.getD close
  let ma_50 := md.ma_50.getD close
  let ma_200 := md.ma_200.getD close
  let ma_score : ℚ :=
    (if close > ma_20 then 30 else 0) + (if close > ma_50 then 30 else 0) +
      (if close > ma_200 then 30 else 0)
  let ma_count : ℚ :=
    claimed_ma_present_count md.ma_20 close + claimed_ma_present_count md.ma_50 close +
      claimed_ma_present_count md.ma_200 close
  let ma_score_pct : ℚ :=
    if close > ma_20 ∨ close > ma_50 ∨ close > ma_200 then
      ma_score / (ma_count * 30) * 100
    else 0
  clamp100 (0.6 * ma_score_pct + 0.4 * rsi_score_of rsi)

/-- A record on which the claimed trend formula disagrees with the code:
close 100, ma_20 = 90 (exceeded), ma_50 = 110 (present, not exceeded),
ma_200 absent, rsi absent. -/
def mdC3 : MarketData := { close := some 100, ma_20 := some 90, ma_50 := some 110 }

/-- C3 counterexample: on `mdC3` the code normalises by the count of averages
exceeded (one), giving ma_score_pct = 100 and trend score 60, while the
claimed normalisation by the count of MA fields present and differing from
close (two) would give ma_score_pct = 50 and trend score 30. -/
theorem c3_counterexample :
    calculate_trend_sentiment mdC3 = 60 ∧ claimed_trend_sentiment mdC3 = 30 := by
  constructor
  · norm_num [calculate_trend_sentiment, mdC3, rsi_score_of, clamp100, max_def, min_def]
  · norm_num [claimed_trend_sentiment, claimed_ma_present_count, mdC3, rsi_score_of,
      clamp100, max_def, min_def]

/-- C3 amended: the trend sub-score equals
clamp(0.6 * ma_score_pct + 0.4 * rsi_score, -100, 100) where `ma_count` is
the number of averages that close strictly exceeds (the same comparisons
that award the 30 points), so ma_score_pct is 100 when close exceeds at
least one of the (defaulted) averages and 0 otherwise; the RSI component is
as the claim states it, and rsi = 75 gives rsi_score = 45. -/
theorem c3_trend_formula (md : MarketData) :
    calculate_trend_sentiment md =
      clamp100 (0.6 *
        (if md.close.getD 0 > md.ma_20.getD (md.close.getD 0) ∨
            md.close.getD 0 > md.ma_50.getD (md.close.getD 0) ∨
            md.close.getD 0 > md.ma_200.getD (md.close.getD 0)
         then (100 : ℚ) else 0) +
        0.4 * rsi_score_of (md.rsi.getD 50)) ∧
    rsi_score_of 75 = 45 := by
  constructor
  · simp only [calculate_trend_sentiment]
    refine congrArg clamp100 ?_
    split_ifs <;> first | ring1 | linarith | tauto
  · norm_num [rsi_score_of]

/-- Position of a label key on the bullish-to-bearish axis: larger means
strictly more bearish. -/
def bearish_rank (k : SentimentKey) : ℕ :=
  match k with
  | SentimentKey.very_bullish => 0
  | SentimentKey.bullish => 1
  | SentimentKey.neutral => 2
  | SentimentKey.bearish => 3
  | SentimentKey.very_bearish => 4

/-- C4: for a configuration with descending thresholds the classifier sends a
score equal to a threshold to that threshold's (more bullish) label, and the
label is monotone: a strictly larger score is never classified strictly more
bearish. -/
theorem c4_label_order (t : Thresholds)
    (h1 : t.bearish < t.neutral) (h2 : t.neutral < t.bullish)
    (h3 : t.bullish < t.very_bullish) :
    (get_sentiment_label t t.very_bullish = SentimentKey.very_bullish ∧
     get_sentiment_label t t.bullish = SentimentKey.bullish ∧
     get_sentiment_label t t.neutral = SentimentKey.neutral ∧
     get_sentiment_label t t.bearish = SentimentKey.bearish) ∧
    ∀ a b : ℚ, b < a →
      bearish_rank (get_sentiment_label t a) ≤ bearish_rank (get_sentiment_label t b) := by
  constructor
  · refine ⟨?_, ?_, ?_, ?_⟩ <;>
      (unfold get_sentiment_label; split_ifs <;> first | rfl | linarith)
  · intro a b hab
    unfold get_sentiment_label
    split_ifs <;> simp [bearish_rank] <;> linarith

/-- C4 witness: with the default thresholds, a score exactly at the bullish
threshold is labelled bullish, and 40 is not classified more bearishly
than 20. -/
theorem c4_witness :
    get_sentiment_label THRESHOLDS 30 = SentimentKey.bullish ∧
    bearish_rank (get_sentiment_label THRESHOLDS 40) ≤
      bearish_rank (get_sentiment_label THRESHOLDS 20) := by
  have h := c4_label_order THRESHOLDS (by norm_num [THRESHOLDS])
    (by norm_num [THRESHOLDS]) (by norm_num [THRESHOLDS])
  exact ⟨h.1.2.1, h.2 40 20 (by norm_num)⟩

/-- A record whose breadth computation faults internally: total is 4, but the
unused ratio `advances / (declines + 1)` divides by zero. -/
def mdC5 : MarketData := { advances := some 5, declines := some (-1) }

/-- C5 counterexample: an internal computation faults on `mdC5` (the breadth
calculator's ratio division raises), yet the result of `calculate_sentiment`
is not the default-neutral record — the fault is absorbed inside the breadth
calculator (score 0) while confidence, among other fields, is computed
normally. -/
theorem c5_counterexample :
    breadth_try mdC5 = Except.error () ∧
    calculate_sentiment mdC5 none 0 0 ≠ default_sentiment 0 0 := by
  constructor
  · norm_num [breadth_try, mdC5]
  · intro h
    have h2 := congrArg SentimentResult.confidence h
    rw [calculate_sentiment_eq] at h2
    norm_num [calculate_confidence_eq, signals_present, bump, default_sentiment,
      mdC5, max_def, min_def] at h2

/-- C5 amended: no exception escapes the engine.  A fault inside a component
calculator is caught by that component, which substitutes its own neutral
value (0 for a sub-score, 0.5 for confidence) rather than replacing the whole
result; and the top level of `calculate_sentiment` never receives a fault, so
every call returns the fully-populated record of the normal path. -/
theorem c5_no_fault_escapes :
    (∀ md : MarketData, breadth_try md = Except.error () →
      calculate_breadth_sentiment md = 0) ∧
    (∀ md : MarketData, momentum_try md = Except.error () →
      calculate_momentum_sentiment md = 0) ∧
    (∀ md : MarketData, confidence_try md = Except.error () →
      calculate_confidence md = 0.5) ∧
    ∀ (md : MarketData) (ad : Option ℚ) (ts nd : ℚ),
      calculate_sentiment_try md ad ts nd =
        Except.ok (calculate_sentiment md ad ts nd) := by
  refine ⟨?_, ?_, ?_, fun md ad ts nd => rfl⟩
  · intro md h
    unfold calculate_breadth_sentiment
    rw [h]
  · intro md h
    unfold calculate_momentum_sentiment
    rw [h]
  · intro md h
    unfold calculate_confidence
    rw [h]

/-- C5 witness: on `mdC5` the breadth body faults and the breadth calculator
returns 0. -/
theorem c5_witness :
    breadth_try mdC5 = Except.error () ∧ calculate_breadth_sentiment mdC5 = 0 :=
  ⟨by norm_num [breadth_try, mdC5],
    c5_no_fault_escapes.1 mdC5 (by norm_num [breadth_try, mdC5])⟩

/-- The count of non-trivially present indicators exactly as the claim words
it (written from the claim, not the source): strictly nonzero for every
indicator except advances, which counts only when positive — so volume counts
whenever it is nonzero. -/
def claimed_signal_count (md : MarketData) : ℚ :=
  (if md.advances.getD 0 > 0 then 1 else 0) +
  (if md.change_pct.getD 0 ≠ 0 then 1 else 0) +
  (if md.rsi.getD 0 ≠ 0 then 1 else 0) +
  (if md.macd.getD 0 ≠ 0 then 1 else 0) +
  (if md.volume.getD 0 ≠ 0 then 1 else 0) +
  (if md.ma_20.getD 0 ≠ 0 then 1 else 0) +
  (if md.ma_50.getD 0 ≠ 0 then 1 else 0) +
  (if md.ma_200.getD 0 ≠ 0 then 1 else 0)

/-- The count the code computes: as the claim, except that volume, like
advances, counts only when strictly positive. -/
def nontrivial_signal_count (md : MarketData) : ℚ :=
  (if md.advances.getD 0 > 0 then 1 else 0) +
  (if md.change_pct.getD 0 ≠ 0 then 1 else 0) +
  (if md.rsi.getD 0 ≠ 0 then 1 else 0) +
  (if md.macd.getD 0 ≠ 0 then 1 else 0) +
  (if md.volume.getD 0 > 0 then 1 else 0) +
  (if md.ma_20.getD 0 ≠ 0 then 1 else 0) +
  (if md.ma_50.getD 0 ≠ 0 then 1 else 0) +
  (if md.ma_200.getD 0 ≠ 0 then 1 else 0)

/-- A record holding only a negative volume. -/
def mdC6 : MarketData := { volume := some (-1) }

/-- C6 counterexample: volume = -1 is nonzero, so the claimed count/8 gives
confidence 1/8, but the code tests `volume > 0` and returns 0. -/
theorem c6_counterexample :
    calculate_confidence mdC6 = 0 ∧
    max 0 (min 1 (claimed_signal_count mdC6 / 8)) = 1 / 8 := by
  constructor
  · norm_num [calculate_confidence_eq, signals_present, bump, mdC6, max_def, min_def]
  · norm_num [claimed_signal_count, mdC6, max_def, min_def]

/-- C6 amended: confidence equals count/8 clamped to [0, 1], where count is
the number of the eight indicators present with a non-trivial value — tested
as strictly nonzero except advances AND volume, which count only when
strictly positive — absent fields being treated as 0 (an absent rsi does not
count despite its documented default of 50). -/
theorem c6_confidence_formula (md : MarketData) :
    calculate_confidence md = max 0 (min 1 (nontrivial_signal_count md / 8)) := by
  rw [calculate_confidence_eq]
  have hb : ∀ (b : Prop) (inst : Decidable b) (s : ℚ),
      bump b s = s + (if b then 1 else 0) := by
    intro b inst s
    unfold bump
    split_ifs <;> ring
  have h : signals_present md = nontrivial_signal_count md := by
    simp only [signals_present, nontrivial_signal_count, hb]
    ring
  rw [h]
  norm_num

/-- The breadth sub-score exactly as the claim words it (written from the
claim, not the source): 0 on a zero total, otherwise the seven-bucket
piecewise-linear function of the advance percentage, clamped — with no
provision for the ratio division that the source performs first. -/
def claimed_breadth_sentiment (md : MarketData) : ℚ :=
  let advances := md.advances.getD 0
  let declines := md.declines.getD 0
  let unchanged := md.unchanged.getD 0
  let total := advances + declines + unchanged
  if total = 0 then 0
  else clamp100 (breadth_bucket_score (advances / total))

/-- A record with nonzero total on which the unused advance/decline ratio of
the source divides by zero: advances 2, declines -1. -/
def mdC7 : MarketData := { advances := some 2, declines := some (-1) }

/-- C7 counterexample: on `mdC7` the total is 1 ≠ 0, so the claim prescribes
the bucket value (advance_pct = 2 falls in the top bucket and clamps to 100),
but the source's `ad_ratio = advances / (declines + 1)` faults first and the
score is the exception fallback 0. -/
theorem c7_counterexample :
    mdC7.advances.getD 0 + mdC7.declines.getD 0 + mdC7.unchanged.getD 0 ≠ 0 ∧
    calculate_breadth_sentiment mdC7 = 0 ∧
    claimed_breadth_sentiment mdC7 = 100 := by
  refine ⟨by norm_num [mdC7], ?_, ?_⟩
  · norm_num [calculate_breadth_sentiment, breadth_try, mdC7]
  · norm_num [claimed_breadth_sentiment, breadth_bucket_score, BREADTH_THRESHOLDS,
      mdC7, clamp100, max_def, min_def]

/-- Record of the spec's breadth example: advances 400, declines 250,
unchanged 50. -/
def mdEx1 : MarketData :=
  { advances := some 400, declines := some 250, unchanged := some 50 }

/-- C7 amended: the breadth sub-score is 0 on a zero total, and equals the
claimed seven-bucket function whenever `declines ≠ -1`; only when
`declines = -1` (with nonzero total) does the unused internal ratio division
fault and force the score to 0.  On the example record (advances 400,
declines 250, unchanged 50) the score is 30 + (400/700 - 0.55)·200 = 240/7 ≈
34.3. -/
theorem c7_breadth_formula :
    (∀ md : MarketData,
      md.advances.getD 0 + md.declines.getD 0 + md.unchanged.getD 0 = 0 →
        calculate_breadth_sentiment md = 0) ∧
    (∀ md : MarketData, md.declines.getD 0 + 1 ≠ 0 →
        calculate_breadth_sentiment md = claimed_breadth_sentiment md) ∧
    calculate_breadth_sentiment mdEx1 = 240 / 7 := by
  refine ⟨?_, ?_, ?_⟩
  · intro md h
    simp only [calculate_breadth_sentiment, breadth_try]
    rw [if_pos h]
  · intro md h
    simp only [calculate_breadth_sentiment, breadth_try, claimed_breadth_sentiment]
    split_ifs <;> rfl
  · norm_num [calculate_breadth_sentiment, breadth_try, breadth_bucket_score,
      BREADTH_THRESHOLDS, mdEx1, clamp100, max_def, min_def]

/-- C7 witness: the example record has declines ≠ -1, and on it the code
agrees with the claimed bucket function. -/
theorem c7_witness :
    mdEx1.declines.getD 0 + 1 ≠ 0 ∧
    calculate_breadth_sentiment mdEx1 = claimed_breadth_sentiment mdEx1 :=
  ⟨by norm_num [mdEx1], c7_breadth_formula.2.1 mdEx1 (by norm_num [mdEx1])⟩

/-- The volume bucket table as the claim states it: ratio crossed with the
sign of change_pct, and -40 for every ratio not above 0.7. -/
def claimed_volume_bucket (ratio change_pct : ℚ) : ℚ :=
  if ratio > 1.5 then
    if change_pct > 0 then 70 else if change_pct < 0 then -70 else 30
  else if ratio > 1.0 then
    if change_pct > 0 then 40 else if change_pct < 0 then -40 else 0
  else if ratio > 0.7 then
    if change_pct > 0 then 20 else if change_pct < 0 then -20 else -10
  else -40

/-- C8: for every record in which volume_avg_20d is present, the volume
sub-score is 0 when that average is 0, and otherwise is given by the bucket
table over ratio = volume / volume_avg_20d and the sign of change_pct
(change_pct defaulting to 0), with -40 for all ratios not above 0.7
regardless of the sign. -/
theorem c8_volume_buckets (md : MarketData) (a : ℚ)
    (hav : md.volume_avg_20d = some a) :
    calculate_volume_sentiment md =
      if a = 0 then 0
      else claimed_volume_bucket (md.volume.getD 0 / a) (md.change_pct.getD 0) := by
  simp only [calculate_volume_sentiment, claimed_volume_bucket, hav, Option.getD_some]
  rcases eq_or_ne a 0 with h0 | h0
  · rw [if_pos h0, if_pos h0]
  · rw [if_neg h0, if_neg h0, if_pos h0]
    split_ifs <;> norm_num [clamp100, max_def, min_def]

/-- A record with volume 3, a 20-day average of 2 (ratio 1.5) and a positive
change. -/
def mdC8 : MarketData :=
  { volume := some 3, volume_avg_20d := some 2, change_pct := some 1 }

/-- C8 witness: on `mdC8` the average is present and nonzero, the ratio is
exactly 1.5 (so not above 1.5 but above 1.0), the change is positive, and the
theorem instantiates to the bucket value 40. -/
theorem c8_witness :
    mdC8.volume_avg_20d = some 2 ∧
    calculate_volume_sentiment mdC8 =
      (if (2 : ℚ) = 0 then 0
       else claimed_volume_bucket (mdC8.volume.getD 0 / 2) (mdC8.change_pct.getD 0)) ∧
    calculate_volume_sentiment mdC8 = 40 := by
  refine ⟨rfl, c8_volume_buckets mdC8 2 rfl, ?_⟩
  norm_num [calculate_volume_sentiment, mdC8, clamp100, max_def, min_def]

/-- C9: the technical levels follow the classic pivot-point formulas whenever
close, high and low are all positive; otherwise every level collapses to
close; and the three moving averages pass through unchanged, defaulting to
close when absent. -/
theorem c9_technical_levels (md : MarketData) :
    ((0 < md.close.getD 0 ∧ 0 < md.high.getD 0 ∧ 0 < md.low.getD 0) →
      (calculate_technical_levels md).pivot_point =
          (md.high.getD 0 + md.low.getD 0 + md.close.getD 0) / 3 ∧
      (calculate_technical_levels md).resistance_r1 =
          2 * (calculate_technical_levels md).pivot_point - md.low.getD 0 ∧
      (calculate_technical_levels md).support_s1 =
          2 * (calculate_technical_levels md).pivot_point - md.high.getD 0 ∧
      (calculate_technical_levels md).resistance_r2 =
          (calculate_technical_levels md).pivot_point +
            (md.high.getD 0 - md.low.getD 0) ∧
      (calculate_technical_levels md).support_s2 =
          (calculate_technical_levels md).pivot_point -
            (md.high.getD 0 - md.low.getD 0)) ∧
    (¬(0 < md.close.getD 0 ∧ 0 < md.high.getD 0 ∧ 0 < md.low.getD 0) →
      (calculate_technical_levels md).pivot_point = md.close.getD 0 ∧
      (calculate_technical_levels md).resistance_r1 = md.close.getD 0 ∧
      (calculate_technical_levels md).resistance_r2 = md.close.getD 0 ∧
      (calculate_technical_levels md).support_s1 = md.close.getD 0 ∧
      (calculate_technical_levels md).support_s2 = md.close.getD 0) ∧
    (calculate_technical_levels md).ma_20 = md.ma_20.getD (md.close.getD 0) ∧
    (calculate_technical_levels md).ma_50 = md.ma_50.getD (md.close.getD 0) ∧
    (calculate_technical_levels md).ma_200 = md.ma_200.getD (md.close.getD 0) := by
  simp only [calculate_technical_levels]
  split_ifs with h
  · exact ⟨fun _ => ⟨rfl, rfl, rfl, rfl, rfl⟩, fun hn => absurd h hn, rfl, rfl, rfl⟩
  · exact ⟨fun hp => absurd hp h, fun _ => ⟨rfl, rfl, rfl, rfl, rfl⟩, rfl, rfl, rfl⟩

/-- Record of the spec's pivot example: high 13100, low 12900, close 13050. -/
def mdEx3 : MarketData :=
  { high := some 13100, low := some 12900, close := some 13050 }

/-- C9 witness: the example record satisfies the positivity hypothesis, and
the theorem gives pivot = 39050/3 ≈ 13016.7 and R1 = 2·pivot − 12900 =
39400/3 ≈ 13133.3 on it. -/
theorem c9_witness :
    (0 < mdEx3.close.getD 0 ∧ 0 < mdEx3.high.getD 0 ∧ 0 < mdEx3.low.getD 0) ∧
    (calculate_technical_levels mdEx3).pivot_point = 39050 / 3 ∧
    (calculate_technical_levels mdEx3).resistance_r1 = 39400 / 3 := by
  have hpos : 0 < mdEx3.close.getD 0 ∧ 0 < mdEx3.high.getD 0 ∧ 0 < mdEx3.low.getD 0 := by
    norm_num [mdEx3]
  have h := (c9_technical_levels mdEx3).1 hpos
  refine ⟨hpos, ?_, ?_⟩
  · rw [h.1]
    norm_num [mdEx3]
  · rw [h.2.1, h.1]
    norm_num [mdEx3]

/-- An arbitrary concrete record for the determinism counterexample. -/
def mdC10 : MarketData := { close := some 1 }

/-- C10 counterexample: the same record, configuration and supplied analysis
date, evaluated at two different wall-clock instants, give results that are
not identical in every field — the timestamp field is generated inside the
engine by `datetime.now()`. -/
theorem c10_counterexample :
    calculate_sentiment mdC10 (some 5) 0 0 ≠ calculate_sentiment mdC10 (some 5) 1 0 := by
  intro h
  have h2 := congrArg SentimentResult.timestamp h
  rw [calculate_sentiment_eq, calculate_sentiment_eq] at h2
  norm_num at h2

/-- The result with its engine-generated timestamp field blanked. -/
def erase_timestamp (r : SentimentResult) : SentimentResult :=
  { r with timestamp := 0 }

/-- C10 amended: every field of the result other than the timestamp is a pure
function of the record and the caller-supplied analysis date: two invocations
at different clock instants agree on all of them, the analysis-date field is
the caller's value, and the timestamp field is the engine's own clock read
rather than an input. -/
theorem c10_pure_except_timestamp (md : MarketData) (d ts1 nd1 ts2 nd2 : ℚ) :
    erase_timestamp (calculate_sentiment md (some d) ts1 nd1) =
      erase_timestamp (calculate_sentiment md (some d) ts2 nd2) ∧
    (calculate_sentiment md (some d) ts1 nd1).analysis_date = d ∧
    (calculate_sentiment md (some d) ts1 nd1).timestamp = ts1 := ⟨rfl, rfl, rfl⟩

end Masi
